import Mathlib

/-!
Verification of the navigation & search coordination logic of
`source/views/pdf_viewer_dialog.py` (PDF viewer dialog).

The Python code is shallowly embedded as pure Lean functions:

* `_zoom_changed` (zoom parsing via Python `float` on the `'%'`-stripped
  combo text) becomes `zoom_changed`, over an executable model of the
  `float(...)` literal parser (`pyFloat?`).  Numeric values are modelled
  exactly: a parsed literal is kept as its sign / integer part / fraction
  digits / exponent, and `pyVal` interprets it as a rational.  (The grammar
  subset modelled: optional surrounding whitespace, optional sign,
  `inf`/`infinity`/`nan` keywords case-insensitively, and decimal literals
  with optional fraction and exponent.  Digit-group underscores are not
  modelled; no claim exercises them.)
* The dialog's mutable widgets relevant to navigation (the page spinbox,
  the `"/ n"` page-count label, the engine's current page) become the
  record `DialogState`; handlers (`_goto_page`, `_previous_page`,
  `_next_page`, `load_pdf`, `_on_toc_clicked`) become state transformers
  that additionally return the list of engine requests they issue
  (`EngineCall`).  `QSpinBox.setValue`/`setRange` clamp to the range and
  emit `valueChanged` (wired to `_goto_page`) only when the stored value
  actually changes, as in Qt.
* `SearchToolBar` becomes `SearchToolBarState`; `QPdfSearchModel` is
  modelled by `SearchModel` (the current search text plus the ordered list
  of 0-based result pages).  Setting a non-empty search text runs the
  engine's search; setting the empty text clears the results without
  searching, matching `QPdfSearchModel`.  `resultAtIndex` at an
  out-of-range index yields no jump, matching the invalid-link path
  (an invalid link has page `-1`, so `_goto_page (-1 + 1)` is a no-op).
* The constructor `PdfViewerDialog.__init__` is transcribed, for the
  object-construction claims, as the ordered event list `initSteps`.
* The engine (`QPdfDocument` / `QPdfView` / search backend) is external;
  its contract follows §6 of the design: `load` either succeeds with a
  page count or fails, search returns an ordered result list.
-/

namespace PdfViewer

/-- Result of Python `float(...)`: a finite value kept in exact decimal
form (sign, integer part, fraction digits as a number plus their count,
decimal exponent), or an infinity, or `nan`. -/
inductive PyFloat where
  | finite (neg : Bool) (intPart fracPart fracLen : ℕ) (exp : ℤ)
  | inf (neg : Bool)
  | nan
deriving DecidableEq

/-- Python `ValueError`, raised by `float(...)` on a malformed literal. -/
inductive PyError where
  | valueError
deriving DecidableEq

/-- Numeric value of a list of decimal digit characters. -/
def natOfDigits (l : List Char) : ℕ :=
  l.foldl (fun a c => a * 10 + (c.toNat - 48)) 0

/-- `10 ^ e` as a rational, for an integer exponent. -/
def qpow10 (e : ℤ) : ℚ :=
  if 0 ≤ e then ((10 ^ e.toNat : ℕ) : ℚ) else ((10 ^ (-e).toNat : ℕ) : ℚ)⁻¹

/-- Exact rational value of a parsed float; `none` on `inf`/`nan`. -/
def pyVal : PyFloat → Option ℚ
  | .finite neg i f l e =>
      some ((if neg then (-1 : ℚ) else 1) * ((i : ℚ) + (f : ℚ) / ((10 : ℚ) ^ l)) * qpow10 e)
  | .inf _ => none
  | .nan => none

/-- Mantissa of a decimal literal: integer part, fraction digits and their
count, and the unconsumed remainder.  Fails when no digit is present. -/
def parseMantissa (l : List Char) : Option ((ℕ × ℕ × ℕ) × List Char) :=
  let ip := l.takeWhile Char.isDigit
  let r1 := l.dropWhile Char.isDigit
  match r1 with
  | '.' :: r2 =>
      let fp := r2.takeWhile Char.isDigit
      let r3 := r2.dropWhile Char.isDigit
      if ip.isEmpty && fp.isEmpty then none
      else some ((natOfDigits ip, natOfDigits fp, fp.length), r3)
  | _ => if ip.isEmpty then none else some ((natOfDigits ip, 0, 0), r1)

/-- Exponent digits (with sign applied); at least one digit, digits only. -/
def parseExpDigits (neg : Bool) (d : List Char) : Option ℤ :=
  if d.isEmpty || !(d.all Char.isDigit) then none
  else some (if neg then -(natOfDigits d : ℤ) else (natOfDigits d : ℤ))

/-- The exponent tail of a float literal: empty means exponent `0`;
otherwise `e`/`E`, an optional sign, and one or more digits consuming the
whole remainder. -/
def parseExpTail : List Char → Option ℤ
  | [] => some 0
  | c :: r =>
      if c = 'e' || c = 'E' then
        match r with
        | '+' :: d => parseExpDigits false d
        | '-' :: d => parseExpDigits true d
        | d => parseExpDigits false d
      else none

/-- Body of a float literal after the optional sign: the keywords
`inf` / `infinity` / `nan` (case-insensitive), or mantissa plus exponent. -/
def parseAfterSign (neg : Bool) (l : List Char) : Option PyFloat :=
  let low := l.map Char.toLower
  if low = "inf".toList || low = "infinity".toList then some (PyFloat.inf neg)
  else if low = "nan".toList then some PyFloat.nan
  else
    match parseMantissa l with
    | none => none
    | some (m, r) =>
        match parseExpTail r with
        | none => none
        | some e => some (PyFloat.finite neg m.1 m.2.1 m.2.2 e)

/-- Strip leading and trailing whitespace, as Python `float` does. -/
def stripPyWs (l : List Char) : List Char :=
  ((l.dropWhile Char.isWhitespace).reverse.dropWhile Char.isWhitespace).reverse

/-- Model of Python `float(s)`: `none` when `float` raises `ValueError`. -/
def pyFloat? (s : String) : Option PyFloat :=
  match stripPyWs s.toList with
  | '+' :: r => parseAfterSign false r
  | '-' :: r => parseAfterSign true r
  | r => parseAfterSign false r

/-- Python `s.rstrip('%')`: remove every trailing `'%'` character. -/
def rstripPercent (s : String) : String :=
  String.mk ((s.toList.reverse.dropWhile (fun c => c = '%')).reverse)

/-- Exact division by 100 on a parsed float (`zoom = float(...) / 100.0`):
on a finite value this shifts the decimal exponent down by two. -/
def pyDiv100 : PyFloat → PyFloat
  | .finite neg i f l e => .finite neg i f l (e - 2)
  | .inf b => .inf b
  | .nan => .nan

instance {ε α : Type} [DecidableEq ε] [DecidableEq α] : DecidableEq (Except ε α)
  | .error e, .error f =>
      if h : e = f then .isTrue (congrArg Except.error h)
      else .isFalse (fun hh => h (Except.error.inj hh))
  | .error _, .ok _ => .isFalse Except.noConfusion
  | .ok _, .error _ => .isFalse Except.noConfusion
  | .ok a, .ok b =>
      if h : a = b then .isTrue (congrArg Except.ok h)
      else .isFalse (fun hh => h (Except.ok.inj hh))

/-- `PdfViewerDialog._zoom_changed`: parse the combo text with the trailing
`'%'` stripped; a failed parse raises `ValueError` (so `setZoomFactor` is
never reached and the current zoom is untouched); otherwise the factor
`value / 100` is applied to the view. -/
def zoom_changed (zoom_text : String) : Except PyError PyFloat :=
  match pyFloat? (rstripPercent zoom_text) with
  | none => Except.error PyError.valueError
  | some v => Except.ok (pyDiv100 v)

/-- The zoom factor of the view after `_zoom_changed` runs with current
factor `current`: unchanged when the handler raises. -/
def zoom_after (zoom_text : String) (current : PyFloat) : PyFloat :=
  match zoom_changed zoom_text with
  | Except.ok z => z
  | Except.error _ => current

/-- Rational value of the factor applied by `_zoom_changed`, when the
handler succeeds with a finite value. -/
def zoomValQ (zoom_text : String) : Option ℚ :=
  match zoom_changed zoom_text with
  | Except.ok f => pyVal f
  | Except.error _ => none

/-- A request issued to the external engine / runtime while a handler runs:
a full-text search (triggered through `QPdfSearchModel.setSearchText`), a
viewport jump to a 0-based page (`pageNavigator().jump`), or the
`print` of a load-error report. -/
inductive EngineCall where
  | search (query : String)
  | jumpTo (internalPage : ℤ)
  | printError (msg : String)
deriving DecidableEq

/-- The dialog state touched by the navigation handlers: the loaded
document's page count, the page spinbox (value and range), the `"/ n"`
page-count label, the view's zoom factor, and the engine's current page
(0-based, moved by `jump`). -/
structure DialogState where
  pageCount : ℕ
  spin_value : ℤ
  spin_min : ℤ
  spin_max : ℤ
  total_label : String
  zoom_factor : PyFloat
  view_page : ℤ
deriving DecidableEq

/-- `PdfViewerDialog._goto_page`: when `1 <= page_num <= pageCount`, jump
the view to the 0-based page `page_num - 1`; otherwise do nothing.  The
spinbox is not touched here. -/
def goto_page (st : DialogState) (page_num : ℤ) : DialogState × List EngineCall :=
  if 1 ≤ page_num ∧ page_num ≤ (st.pageCount : ℤ) then
    ({ st with view_page := page_num - 1 }, [EngineCall.jumpTo (page_num - 1)])
  else (st, [])

/-- `QSpinBox.setValue` on the page spinbox: clamp to the range, and when
the stored value changes emit `valueChanged`, which is connected to
`_goto_page`. -/
def spin_setValue (st : DialogState) (v : ℤ) : DialogState × List EngineCall :=
  let v2 := max st.spin_min (min st.spin_max v)
  if v2 = st.spin_value then (st, [])
  else goto_page { st with spin_value := v2 } v2

/-- `QSpinBox.setRange` on the page spinbox: the maximum is raised to the
minimum if below it, the value is clamped into the new range, and a value
change emits `valueChanged` (connected to `_goto_page`). -/
def spin_setRange (st : DialogState) (lo hi : ℤ) : DialogState × List EngineCall :=
  let hi2 := max lo hi
  let v2 := max lo (min hi2 st.spin_value)
  let st1 := { st with spin_min := lo, spin_max := hi2 }
  if v2 = st.spin_value then (st1, [])
  else goto_page { st1 with spin_value := v2 } v2

/-- `PdfViewerDialog._previous_page`: read the spinbox; when above `1`,
set the spinbox one lower (which triggers `_goto_page`). -/
def previous_page (st : DialogState) : DialogState × List EngineCall :=
  let current := st.spin_value
  if current > 1 then spin_setValue st (current - 1) else (st, [])

/-- `PdfViewerDialog._next_page`: read the spinbox; when below the
document's page count, set the spinbox one higher (which triggers
`_goto_page`). -/
def next_page (st : DialogState) : DialogState × List EngineCall :=
  let current := st.spin_value
  if current < (st.pageCount : ℤ) then spin_setValue st (current + 1) else (st, [])

/-- `PdfViewerDialog.load_pdf`: `self.document.load(...)` together with the
spinbox/label setup runs inside `try`.  A load failure (`LoadError` in the
engine contract, an exception here) is caught and printed, leaving every
piece of dialog state untouched.  On success the document holds `n` pages
and the handler sets the spinbox range to `[1, n]`, the label to `"/ n"`,
and the spinbox value to `1`. -/
def load_pdf (res : Except String ℕ) (st : DialogState) : DialogState × List EngineCall :=
  match res with
  | Except.error e => (st, [EngineCall.printError e])
  | Except.ok n =>
      let st0 := { st with pageCount := n }
      let r1 := spin_setRange st0 1 (n : ℤ)
      let st2 := { r1.1 with total_label := "/ " ++ toString n }
      let r2 := spin_setValue st2 1
      (r2.1, r1.2 ++ r2.2)

/-- `PdfViewerDialog._on_toc_clicked`: read the bookmark's 0-based page
from the model; `None` means no navigation, otherwise `_goto_page(page+1)`. -/
def on_toc_clicked (page : Option ℤ) (st : DialogState) : DialogState × List EngineCall :=
  match page with
  | none => (st, [])
  | some p => goto_page st (p + 1)

/-- Model of `QPdfSearchModel`: the current search text and the ordered
0-based pages of the search results (`rowCount` is the list length,
`resultAtIndex i` yields the `i`-th entry). -/
structure SearchModel where
  searchText : String
  results : List ℤ
deriving DecidableEq

/-- `QPdfSearchModel.setSearchText` against an engine whose full-text
search is `engine`: a non-empty text is searched, the empty text clears
the results without running a search. -/
def setSearchText (engine : String → List ℤ) (text : String) :
    SearchModel × List EngineCall :=
  if text = "" then ({ searchText := "", results := [] }, [])
  else ({ searchText := text, results := engine text }, [EngineCall.search text])

/-- `QPdfSearchModel.resultAtIndex`: the 0-based page of the `i`-th result;
out of range there is no valid link (and the subsequent `_goto_page (-1)+1`
would be a no-op), modelled as `none`. -/
def resultAtIndex (m : SearchModel) (i : ℤ) : Option ℤ :=
  if 0 ≤ i then m.results.get? i.toNat else none

/-- The mutable state of `SearchToolBar`: the search model reference
(`None` until `set_search_model` is called) and `current_result_index`
(`-1` encodes "no current result"). -/
structure SearchToolBarState where
  search_model : Option SearchModel
  current_result_index : ℤ
deriving DecidableEq

/-- `SearchToolBar.__init__`: no model yet, index `-1`. -/
def searchToolBarInit : SearchToolBarState :=
  { search_model := none, current_result_index := -1 }

/-- `SearchToolBar.set_search_model`. -/
def set_search_model (tb : SearchToolBarState) (m : SearchModel) : SearchToolBarState :=
  { tb with search_model := some m }

/-- `SearchToolBar._go_to_current_result`: when the index is non-negative,
look the result up and call the parent dialog's `_goto_page` on its page
plus one.  (The state with a non-negative index and no model is never
reached: every assignment of a non-negative index happens under a
non-`None` model.) -/
def go_to_current_result (tb : SearchToolBarState) (st : DialogState) :
    DialogState × List EngineCall :=
  if 0 ≤ tb.current_result_index then
    match tb.search_model with
    | some m =>
        match resultAtIndex m tb.current_result_index with
        | some p => goto_page st (p + 1)
        | none => (st, [])
    | none => (st, [])
  else (st, [])

/-- `SearchToolBar._search_forward`: with a model holding at least one
result, advance the cyclic index by one modulo the result count (Python
`%`, i.e. Euclidean mod) and go to the now-current result. -/
def search_forward (tb : SearchToolBarState) (st : DialogState) :
    (SearchToolBarState × DialogState) × List EngineCall :=
  match tb.search_model with
  | none => ((tb, st), [])
  | some m =>
      let count := m.results.length
      if count = 0 then ((tb, st), [])
      else
        let tb2 := { tb with
          current_result_index := (tb.current_result_index + 1) % (count : ℤ) }
        let r := go_to_current_result tb2 st
        ((tb2, r.1), r.2)

/-- `SearchToolBar._search_backward`: with a model holding at least one
result, retreat the cyclic index by one modulo the result count (Python
`%`, i.e. Euclidean mod) and go to the now-current result. -/
def search_backward (tb : SearchToolBarState) (st : DialogState) :
    (SearchToolBarState × DialogState) × List EngineCall :=
  match tb.search_model with
  | none => ((tb, st), [])
  | some m =>
      let count := m.results.length
      if count = 0 then ((tb, st), [])
      else
        let tb2 := { tb with
          current_result_index := (tb.current_result_index - 1) % (count : ℤ) }
        let r := go_to_current_result tb2 st
        ((tb2, r.1), r.2)

/-- `SearchToolBar._on_search_text_changed`: with a model set, forward the
new text to `setSearchText`, reset the index to `0` when there are results
and to `-1` otherwise, then go to the current result. -/
def on_search_text_changed (engine : String → List ℤ) (text : String)
    (tb : SearchToolBarState) (st : DialogState) :
    (SearchToolBarState × DialogState) × List EngineCall :=
  match tb.search_model with
  | none => ((tb, st), [])
  | some _ =>
      let r1 := setSearchText engine text
      let tb2 : SearchToolBarState :=
        { search_model := some r1.1,
          current_result_index := if 0 < r1.1.results.length then 0 else -1 }
      let r2 := go_to_current_result tb2 st
      ((tb2, r2.1), r1.2 ++ r2.2)

/-- The state component of one `_search_forward` click (engine calls
dropped), used to iterate clicks. -/
def search_forward_step (p : SearchToolBarState × DialogState) :
    SearchToolBarState × DialogState :=
  (search_forward p.1 p.2).1

/-- The state component of one `_search_backward` click (engine calls
dropped), used to iterate clicks. -/
def search_backward_step (p : SearchToolBarState × DialogState) :
    SearchToolBarState × DialogState :=
  (search_backward p.1 p.2).1

/-- The object-construction events of `PdfViewerDialog.__init__`, in
source order, restricted to the document/search/toolbar wiring the
initialization claims are about. -/
inductive InitStep where
  | constructNavigationToolBar
  | constructSearchToolBar
  | addNavigationToolBarToLayout
  | addSearchToolBarToLayout
  | constructDocument
  | constructSearchModel
  | setSearchModelDocument
  | setViewDocument
  | connectNavigationSignals
  | callLoadPdf
  | constructBookmarkModel
  | setBookmarkModelDocument
  | connectTocClicked
  | setSearchModelOnToolBar
deriving DecidableEq, BEq

/-- Transcription of `PdfViewerDialog.__init__` (source lines 107-213):
each entry is one construction/wiring statement, in execution order.  The
line numbers of `source/views/pdf_viewer_dialog.py` are noted. -/
def initSteps : List InitStep := [
  InitStep.constructNavigationToolBar,    -- line 126
  InitStep.constructSearchToolBar,        -- line 127: SearchToolBar(self)
  InitStep.addNavigationToolBarToLayout,  -- line 128
  InitStep.addSearchToolBarToLayout,      -- line 129: first instance shown
  InitStep.constructDocument,             -- line 178
  InitStep.constructSearchModel,          -- line 179: QPdfSearchModel()
  InitStep.setSearchModelDocument,        -- line 180
  InitStep.setViewDocument,               -- line 181
  InitStep.connectNavigationSignals,      -- lines 185-188
  InitStep.callLoadPdf,                   -- line 191
  InitStep.constructBookmarkModel,        -- line 195
  InitStep.setBookmarkModelDocument,      -- line 196
  InitStep.connectTocClicked,             -- line 200
  InitStep.constructSearchModel,          -- line 203: QPdfSearchModel() again
  InitStep.setSearchModelDocument,        -- line 204
  InitStep.constructSearchToolBar,        -- line 207: SearchToolBar(self) again
  InitStep.setSearchModelOnToolBar        -- line 208: wired to the 2nd only
]

/-! Concrete states used by the witnesses: a dialog holding a 10-page
document showing page 1, the fresh dialog before any successful load
(spinbox at its Qt defaults `0 ∈ [0, 99]`, label `"/ 0"`), and a search
model with three results on 0-based pages 0, 2 and 5. -/

/-- Dialog with a 10-page document, spinbox at 1, view on 0-based page 0. -/
def dialog10 : DialogState :=
  ⟨10, 1, 1, 10, "/ 10", PyFloat.finite false 1 0 0 0, 0⟩

/-- Fresh dialog before any successful load: no pages, spinbox at its Qt
defaults. -/
def dialogEmpty : DialogState :=
  ⟨0, 0, 0, 99, "/ 0", PyFloat.finite false 1 0 0 0, 0⟩

/-- A search model for query `"foo"` with results on 0-based pages
0, 2, 5 (the scenario of §8 of the design). -/
def modelFoo : SearchModel :=
  ⟨"foo", [0, 2, 5]⟩

/-- One `_search_forward` click under a model with at least one result:
the model reference is kept and the cyclic index advances by one modulo
the result count. -/
theorem search_forward_index (tb : SearchToolBarState) (st : DialogState)
    (m : SearchModel) (hm : tb.search_model = some m)
    (hn : m.results.length ≠ 0) :
    (search_forward tb st).1.1
      = ⟨some m, (tb.current_result_index + 1) % (m.results.length : ℤ)⟩ := by
  obtain ⟨sm, idx⟩ := tb
  simp only [SearchToolBarState.mk.injEq] at hm ⊢
  subst hm
  simp [search_forward, hn]

/-- One `_search_backward` click under a model with at least one result:
the model reference is kept and the cyclic index retreats by one modulo
the result count. -/
theorem search_backward_index (tb : SearchToolBarState) (st : DialogState)
    (m : SearchModel) (hm : tb.search_model = some m)
    (hn : m.results.length ≠ 0) :
    (search_backward tb st).1.1
      = ⟨some m, (tb.current_result_index - 1) % (m.results.length : ℤ)⟩ := by
  obtain ⟨sm, idx⟩ := tb
  simp only [SearchToolBarState.mk.injEq] at hm ⊢
  subst hm
  simp [search_backward, hn]

/-- After `k` forward clicks from a valid cursor the index is the start
index plus `k`, modulo the result count; the model reference is kept. -/
theorem search_forward_iter (m : SearchModel) (hn : m.results.length ≠ 0)
    (k : ℕ) (p : SearchToolBarState × DialogState)
    (hm : p.1.search_model = some m) :
    ((search_forward_step^[k]) p).1.search_model = some m ∧
    ((search_forward_step^[k]) p).1.current_result_index
      = (p.1.current_result_index + k) % (m.results.length : ℤ) ∨
    ((search_forward_step^[k]) p) = p ∧ k = 0 := by
  induction k with
  | zero => right; exact ⟨rfl, rfl⟩
  | succ k ih =>
      left
      rw [Function.iterate_succ_apply']
      rcases ih with ⟨ih1, ih2⟩ | ⟨ih1, ih2⟩
      · have h := search_forward_index ((search_forward_step^[k]) p).1
          ((search_forward_step^[k]) p).2 m ih1 hn
        have hstep : search_forward_step ((search_forward_step^[k]) p)
            = (search_forward ((search_forward_step^[k]) p).1
                ((search_forward_step^[k]) p).2).1 := rfl
        rw [hstep]
        constructor
        · rw [h]
        · rw [h]
          simp only [ih2]
          have h2 := Int.emod_add_emod (p.1.current_result_index + (k : ℤ))
            (m.results.length : ℤ) 1
          rw [h2]
          push_cast
          ring_nf
      · subst ih2
        rw [ih1]
        have h := search_forward_index p.1 p.2 m hm hn
        have hstep : search_forward_step p = (search_forward p.1 p.2).1 := rfl
        rw [hstep, h]
        simp

/-- After `k` backward clicks from a valid cursor the index is the start
index minus `k`, modulo the result count; the model reference is kept. -/
theorem search_backward_iter (m : SearchModel) (hn : m.results.length ≠ 0)
    (k : ℕ) (p : SearchToolBarState × DialogState)
    (hm : p.1.search_model = some m) :
    ((search_backward_step^[k]) p).1.search_model = some m ∧
    ((search_backward_step^[k]) p).1.current_result_index
      = (p.1.current_result_index - k) % (m.results.length : ℤ) ∨
    ((search_backward_step^[k]) p) = p ∧ k = 0 := by
  induction k with
  | zero => right; exact ⟨rfl, rfl⟩
  | succ k ih =>
      left
      rw [Function.iterate_succ_apply']
      rcases ih with ⟨ih1, ih2⟩ | ⟨ih1, ih2⟩
      · have h := search_backward_index ((search_backward_step^[k]) p).1
          ((search_backward_step^[k]) p).2 m ih1 hn
        have hstep : search_backward_step ((search_backward_step^[k]) p)
            = (search_backward ((search_backward_step^[k]) p).1
                ((search_backward_step^[k]) p).2).1 := rfl
        rw [hstep]
        constructor
        · rw [h]
        · rw [h]
          simp only [ih2]
          have h2 := Int.emod_add_emod (p.1.current_result_index - (k : ℤ))
            (m.results.length : ℤ) (-1)
          simp only [sub_eq_add_neg] at h2 ⊢
          rw [h2]
          push_cast
          ring_nf
      · subst ih2
        rw [ih1]
        have h := search_backward_index p.1 p.2 m hm hn
        have hstep : search_backward_step p = (search_backward p.1 p.2).1 := rfl
        rw [hstep, h]
        simp

/-- C1 (counterexample): the claim "any zoom specification whose remainder
after stripping a trailing percent sign is not a valid positive number
fails with a ParseError and leaves the zoom unchanged" is false on the
code at `"-50%"`: the stripped remainder parses to the number `-50`, which
is not positive, yet `_zoom_changed` does not raise — it applies the
factor `-50 / 100 = -1/2` to the view. -/
theorem C1_counterexample :
    pyFloat? (rstripPercent "-50%") = some (PyFloat.finite true 50 0 0 0) ∧
    pyVal (PyFloat.finite true 50 0 0 0) = some (-50) ∧
    ¬ (0 : ℚ) < -50 ∧
    zoom_changed "-50%" = Except.ok (PyFloat.finite true 50 0 0 (-2)) ∧
    zoomValQ "-50%" = some (-(1 / 2)) := by
  refine ⟨by decide, ?_, by norm_num, by decide, ?_⟩
  · simp [pyVal, qpow10]
  · have h : zoom_changed "-50%" = Except.ok (PyFloat.finite true 50 0 0 (-2)) := by decide
    rw [zoomValQ, h]
    simp [pyVal, qpow10]
    norm_num

/-- C1 (amended): `setZoom "150%"` applies the factor `150 / 100 = 3/2`;
for any zoom specification whose remainder after stripping trailing
percent signs is not a valid Python float literal (e.g. `"abc%"`),
`_zoom_changed` raises a `ValueError` before `setZoomFactor` is reached
and the current zoom factor is left unchanged.  (A specification parsing
to a non-positive number is not rejected: its `value / 100` is applied,
see the counterexample.) -/
theorem C1_setZoom (s : String) (z : PyFloat)
    (h : pyFloat? (rstripPercent s) = none) :
    zoomValQ "150%" = some (3 / 2) ∧
    zoom_changed s = Except.error PyError.valueError ∧
    zoom_after s z = z := by
  refine ⟨?_, ?_, ?_⟩
  · have h2 : zoom_changed "150%" = Except.ok (PyFloat.finite false 150 0 0 (-2)) := by decide
    rw [zoomValQ, h2]
    simp [pyVal, qpow10]
    norm_num
  · rw [zoom_changed, h]
  · rw [zoom_after, zoom_changed, h]

/-- Closed instance of `C1_setZoom` at `s = "abc%"`. -/
theorem C1_setZoom_witness :
    zoomValQ "150%" = some (3 / 2) ∧
    zoom_changed "abc%" = Except.error PyError.valueError ∧
    zoom_after "abc%" (PyFloat.finite false 1 0 0 0) = PyFloat.finite false 1 0 0 0 :=
  C1_setZoom "abc%" (PyFloat.finite false 1 0 0 0) (by decide)

/-- C2: with a search model wired, an empty query clears the model's
results and the cursor (index `-1`) and issues no engine call; a non-empty
query is submitted to the engine, the results are replaced by the engine's
result list, the cursor becomes `0` when that list is non-empty and `-1`
otherwise, and when non-empty `_goto_page (results[0].page + 1)` is
invoked (0-based to 1-based). -/
theorem C2_setQuery (engine : String → List ℤ) (text : String)
    (tb : SearchToolBarState) (st : DialogState) (m : SearchModel)
    (hm : tb.search_model = some m) :
    (text = "" →
      on_search_text_changed engine text tb st = ((⟨some ⟨"", []⟩, -1⟩, st), [])) ∧
    (text ≠ "" → engine text = [] →
      on_search_text_changed engine text tb st
        = ((⟨some ⟨text, engine text⟩, -1⟩, st), [EngineCall.search text])) ∧
    (text ≠ "" → ∀ p rest, engine text = p :: rest →
      on_search_text_changed engine text tb st
        = ((⟨some ⟨text, engine text⟩, 0⟩, (goto_page st (p + 1)).1),
           EngineCall.search text :: (goto_page st (p + 1)).2)) := by
  refine ⟨?_, ?_, ?_⟩
  · intro he
    subst he
    simp [on_search_text_changed, hm, setSearchText, go_to_current_result]
  · intro hne hres
    simp [on_search_text_changed, hm, setSearchText, hne, hres, go_to_current_result]
  · intro hne p rest hres
    simp [on_search_text_changed, hm, setSearchText, hne, hres,
      go_to_current_result, resultAtIndex]

/-- Closed instance of `C2_setQuery`: query `"foo"` over an engine finding
results on 0-based pages 0, 2, 5 replaces the results, sets the cursor to
0 and jumps to external page 1 (0-based page 0). -/
theorem C2_setQuery_witness :
    on_search_text_changed (fun _ => [0, 2, 5]) "foo" ⟨some ⟨"", []⟩, -1⟩ dialog10
      = ((⟨some ⟨"foo", [0, 2, 5]⟩, 0⟩, (goto_page dialog10 (0 + 1)).1),
         EngineCall.search "foo" :: (goto_page dialog10 (0 + 1)).2) :=
  (C2_setQuery (fun _ => [0, 2, 5]) "foo" ⟨some ⟨"", []⟩, -1⟩ dialog10 ⟨"", []⟩ rfl).2.2
    (by decide) 0 [2, 5] rfl

/-- C3: the claim "exactly one owned instance of the search cursor /
search state is created per document load, with no duplicate construction"
is violated by `PdfViewerDialog.__init__`, which constructs
`SearchToolBar` twice (lines 127 and 207) and `QPdfSearchModel` twice
(lines 179 and 203); the instance added to the layout is the first
toolbar, while only the second — never displayed — gets a search model. -/
theorem C3_duplicate_construction :
    initSteps.count InitStep.constructSearchToolBar = 2 ∧
    initSteps.count InitStep.constructSearchModel = 2 ∧
    ¬ initSteps.count InitStep.constructSearchToolBar = 1 := by decide

/-- C4: the claim "every successful goto updates every bound current-page
display" fails on the code: `_goto_page 5` on the 10-page dialog showing
page 1 jumps the view to 0-based page 4 but leaves the page spinbox — the
bound current-page display — at 1, so the displayed page no longer equals
the navigator's current page. -/
theorem C4_goto_display_desync :
    goto_page dialog10 5
      = (⟨10, 1, 1, 10, "/ 10", PyFloat.finite false 1 0 0 0, 4⟩, [EngineCall.jumpTo 4]) ∧
    (goto_page dialog10 5).1.view_page = 4 ∧
    (goto_page dialog10 5).1.spin_value = 1 ∧
    ¬ (goto_page dialog10 5).1.spin_value = 5 := by decide

/-- C6: boundary navigation never changes state: `_goto_page p` outside
`[1, pageCount]` returns the state unchanged with no engine jump;
`_previous_page` with the spinbox at 1 and `_next_page` with the spinbox
at the page count are no-ops. -/
theorem C6_boundary_noop (st : DialogState) (p : ℤ) :
    (¬ (1 ≤ p ∧ p ≤ (st.pageCount : ℤ)) → goto_page st p = (st, [])) ∧
    (st.spin_value = 1 → previous_page st = (st, [])) ∧
    (st.spin_value = (st.pageCount : ℤ) → next_page st = (st, [])) := by
  refine ⟨?_, ?_, ?_⟩
  · intro h
    simp [goto_page, h]
  · intro h
    simp [previous_page, h]
  · intro h
    simp [next_page, h]

/-- Closed instance of `C6_boundary_noop`: on the 10-page dialog,
`_goto_page 11` is a no-op, `_previous_page` at page 1 is a no-op, and
`_next_page` at page 10 is a no-op. -/
theorem C6_boundary_noop_witness :
    goto_page dialog10 11 = (dialog10, []) ∧
    previous_page dialog10 = (dialog10, []) ∧
    next_page ⟨10, 10, 1, 10, "/ 10", PyFloat.finite false 1 0 0 0, 9⟩
      = (⟨10, 10, 1, 10, "/ 10", PyFloat.finite false 1 0 0 0, 9⟩, []) :=
  ⟨(C6_boundary_noop dialog10 11).1 (by decide),
   (C6_boundary_noop dialog10 11).2.1 (by decide),
   (C6_boundary_noop ⟨10, 10, 1, 10, "/ 10", PyFloat.finite false 1 0 0 0, 9⟩ 0).2.2 (by decide)⟩

/-- C7: with a non-empty result set of size `n`, `_search_forward` sets
the cursor to `(cursor + 1) mod n` and `_search_backward` to
`(cursor - 1 + n) mod n`; from a valid cursor, `n` forward clicks (and
likewise `n` backward clicks) return the cursor to its original index;
with an empty result set both are no-ops. -/
theorem C7_cyclic_cursor (tb : SearchToolBarState) (st : DialogState)
    (m : SearchModel) (hm : tb.search_model = some m) :
    (m.results.length ≠ 0 →
      (search_forward tb st).1.1.current_result_index
        = (tb.current_result_index + 1) % (m.results.length : ℤ) ∧
      (search_backward tb st).1.1.current_result_index
        = (tb.current_result_index - 1 + m.results.length) % (m.results.length : ℤ)) ∧
    (0 ≤ tb.current_result_index → tb.current_result_index < m.results.length →
      ((search_forward_step^[m.results.length]) (tb, st)).1.current_result_index
        = tb.current_result_index ∧
      ((search_backward_step^[m.results.length]) (tb, st)).1.current_result_index
        = tb.current_result_index) ∧
    (m.results = [] →
      search_forward tb st = ((tb, st), []) ∧
      search_backward tb st = ((tb, st), [])) := by
  refine ⟨?_, ?_, ?_⟩
  · intro hn
    constructor
    · rw [search_forward_index tb st m hm hn]
    · rw [search_backward_index tb st m hm hn]
      have h := Int.add_mul_emod_self_left
        (tb.current_result_index - 1) (m.results.length : ℤ) 1
      simp only [mul_one] at h
      rw [h]
  · intro h0 hlt
    have hn : m.results.length ≠ 0 := by
      intro hz
      rw [hz] at hlt
      omega
    constructor
    · rcases search_forward_iter m hn m.results.length (tb, st) hm with ⟨_, h2⟩ | ⟨_, h2⟩
      · rw [h2]
        have hc : (tb, st).1.current_result_index + (m.results.length : ℤ)
            = tb.current_result_index + (m.results.length : ℤ) * 1 := by ring
        rw [hc, Int.add_mul_emod_self_left]
        exact Int.emod_eq_of_lt h0 (by exact_mod_cast hlt)
      · exact absurd h2 hn
    · rcases search_backward_iter m hn m.results.length (tb, st) hm with ⟨_, h2⟩ | ⟨_, h2⟩
      · rw [h2]
        have hc : (tb, st).1.current_result_index - (m.results.length : ℤ)
            = tb.current_result_index + (m.results.length : ℤ) * (-1) := by ring
        rw [hc, Int.add_mul_emod_self_left]
        exact Int.emod_eq_of_lt h0 (by exact_mod_cast hlt)
      · exact absurd h2 hn
  · intro hres
    obtain ⟨sm, idx⟩ := tb
    simp only [SearchToolBarState.mk.injEq] at hm
    subst hm
    constructor
    · simp [search_forward, hres]
    · simp [search_backward, hres]

/-- Closed instance of `C7_cyclic_cursor` on the three-result model
`modelFoo` starting at cursor 1, plus the empty-result no-op at a model
with no results. -/
theorem C7_cyclic_cursor_witness :
    (search_forward ⟨some modelFoo, 1⟩ dialog10).1.1.current_result_index = 2 ∧
    (search_backward ⟨some modelFoo, 1⟩ dialog10).1.1.current_result_index = 0 ∧
    ((search_forward_step^[3]) (⟨some modelFoo, 1⟩, dialog10)).1.current_result_index = 1 ∧
    ((search_backward_step^[3]) (⟨some modelFoo, 1⟩, dialog10)).1.current_result_index = 1 ∧
    search_forward ⟨some ⟨"zz", []⟩, -1⟩ dialog10 = ((⟨some ⟨"zz", []⟩, -1⟩, dialog10), []) := by
  have h := C7_cyclic_cursor ⟨some modelFoo, 1⟩ dialog10 modelFoo rfl
  have hz := C7_cyclic_cursor ⟨some ⟨"zz", []⟩, -1⟩ dialog10 ⟨"zz", []⟩ rfl
  exact ⟨((h.1 (by decide)).1).trans (by decide),
         ((h.1 (by decide)).2).trans (by decide),
         (h.2.1 (by decide) (by decide)).1,
         (h.2.1 (by decide) (by decide)).2,
         (hz.2.2 rfl).1⟩

/-- C8: clicking an outline node reads its 0-based target page from the
bookmark model; `None` navigates nowhere, otherwise `_goto_page (page+1)`
runs — a node with target page 4 jumps the 10-page dialog to external
page 5 (0-based page 4). -/
theorem C8_outline_select :
    (∀ st : DialogState, on_toc_clicked none st = (st, [])) ∧
    (∀ (st : DialogState) (p : ℤ), on_toc_clicked (some p) st = goto_page st (p + 1)) ∧
    on_toc_clicked (some 4) dialog10
      = (⟨10, 1, 1, 10, "/ 10", PyFloat.finite false 1 0 0 0, 4⟩, [EngineCall.jumpTo 4]) := by
  refine ⟨fun st => rfl, fun st p => rfl, by decide⟩

/-- C9: a failed document load is caught and reported by `load_pdf`
(printed, not fatal) and no dialog state — pages, spinbox, label, zoom,
view — changes; in the resulting empty-document state (`pageCount = 0`,
spinbox still at its default 0) every navigation handler is a no-op. -/
theorem C9_load_failure (st : DialogState) (e : String) :
    load_pdf (Except.error e) st = (st, [EngineCall.printError e]) ∧
    (st.pageCount = 0 → st.spin_value = 0 →
      (∀ p, goto_page st p = (st, [])) ∧
      previous_page st = (st, []) ∧
      next_page st = (st, [])) := by
  refine ⟨rfl, fun h0 h1 => ⟨?_, ?_, ?_⟩⟩
  · intro p
    have h : ¬ (1 ≤ p ∧ p ≤ (st.pageCount : ℤ)) := by
      rw [h0]
      push_cast
      omega
    simp [goto_page, h]
  · simp [previous_page, h1]
  · simp [next_page, h1, h0]

/-- Closed instance of `C9_load_failure` on the fresh dialog. -/
theorem C9_load_failure_witness :
    load_pdf (Except.error "bad file") dialogEmpty
      = (dialogEmpty, [EngineCall.printError "bad file"]) ∧
    goto_page dialogEmpty 1 = (dialogEmpty, []) ∧
    previous_page dialogEmpty = (dialogEmpty, []) ∧
    next_page dialogEmpty = (dialogEmpty, []) := by
  have h := C9_load_failure dialogEmpty "bad file"
  exact ⟨h.1, (h.2 rfl rfl).1 1, (h.2 rfl rfl).2.1, (h.2 rfl rfl).2.2⟩

/-- C10: the search toolbar starts with cursor index `-1`; once a model
with `n ≥ 2` results is attached, a first `_search_backward` yields index
`(-1 - 1) mod n = n - 2` (the second-to-last result), while a first
`_search_forward` yields index 0. -/
theorem C10_initial_retreat (m : SearchModel) (st : DialogState)
    (h2 : 2 ≤ m.results.length) :
    searchToolBarInit.current_result_index = -1 ∧
    (search_backward (set_search_model searchToolBarInit m) st).1.1.current_result_index
      = (m.results.length : ℤ) - 2 ∧
    (search_forward (set_search_model searchToolBarInit m) st).1.1.current_result_index
      = 0 := by
  have hn : m.results.length ≠ 0 := by omega
  have hmm : (set_search_model searchToolBarInit m).search_model = some m := rfl
  refine ⟨rfl, ?_, ?_⟩
  · rw [search_backward_index (set_search_model searchToolBarInit m) st m hmm hn]
    have hidx : (set_search_model searchToolBarInit m).current_result_index = -1 := rfl
    rw [hidx]
    have hc : (-1 : ℤ) - 1 = (m.results.length : ℤ) - 2 + (m.results.length : ℤ) * (-1) := by
      ring
    rw [hc, Int.add_mul_emod_self_left]
    exact Int.emod_eq_of_lt (by omega) (by omega)
  · rw [search_forward_index (set_search_model searchToolBarInit m) st m hmm hn]
    have hidx : (set_search_model searchToolBarInit m).current_result_index = -1 := rfl
    rw [hidx]
    simp

/-- Closed instance of `C10_initial_retreat` on the three-result model:
the first retreat selects index 1 (second-to-last of three), the first
advance selects index 0. -/
theorem C10_initial_retreat_witness :
    searchToolBarInit.current_result_index = -1 ∧
    (search_backward (set_search_model searchToolBarInit modelFoo) dialog10).1.1.current_result_index
      = 1 ∧
    (search_forward (set_search_model searchToolBarInit modelFoo) dialog10).1.1.current_result_index
      = 0 := by
  have h := C10_initial_retreat modelFoo dialog10 (by decide)
  exact ⟨h.1, h.2.1.trans (by decide), h.2.2⟩

end PdfViewer
